import Mathlib

/-!
Verification of the request/response contract of `src/lambda.py`
(Serverless-REST-API): a single AWS Lambda handler `lambda_handler` that
dispatches on the HTTP method of an API Gateway v2 event, writing a user
record to a DynamoDB table on POST and reading one back on GET.

The embedding is shallow and executable:

* JSON values are the inductive `Json`; `json_loads` models Python's
  `json.loads` (returning `none` where Python raises `JSONDecodeError`) and
  `json_dumps` models `json.dumps` with its default separators and
  `ensure_ascii=True` escaping.  The numeric subset is integers: a body whose
  rejection or acceptance hinges on fractions or exponents lands on the same
  500 response either way, since a parsed float is rejected by the DynamoDB
  client just as an unparsed one is rejected by `json.loads`.
* The DynamoDB table is the association list `Store` from `UserID` keys to the
  stored `Name` attribute value; `put_item` and `get_item` model the two boto3
  calls, including DynamoDB's rejection of empty string key values and of
  non-string values for a string-typed key.  A `StoreOracle` says whether the
  environment lets each call succeed (throttling, permissions, connectivity).
* An inbound event is `Event`; any of its parts may be absent, matching the
  `dict` lookups in the Python code.
* `lambda_handler` returns `Except String (OutboundResponse × Store × List
  (Json × Json))`: `Except.error` models a Python exception escaping the
  handler (there is no surrounding try/except at the method lookup on line
  58), and the list records the `put_item` calls issued during the invocation.
-/

/-- JSON values, the result type of `json.loads`.  An object keeps its fields
in insertion order with a later duplicate key overwriting the earlier one in
place, as a Python `dict` does. -/
inductive Json where
  | null : Json
  | bool : Bool → Json
  | num : Int → Json
  | str : String → Json
  | arr : List Json → Json
  | obj : List (String × Json) → Json

/-- The opening brace character, kept out of literals. -/
def lbrace : Char := Char.ofNat 123

/-- The closing brace character, kept out of literals. -/
def rbrace : Char := Char.ofNat 125

/-- First value bound to a key in an association list (Python `dict`
subscript; keys are unique in every list this development builds). -/
def lookupKey {α : Type} : List (String × α) → String → Option α
  | [], _ => none
  | (k₁, v) :: rest, k => if k₁ = k then some v else lookupKey rest k

/-- Bind a key in an association list the way assignment binds a key in a
Python `dict`: overwrite in place when present, append when absent.  The same
operation models DynamoDB `put_item` on the table contents. -/
def putKey {α : Type} : List (String × α) → String → α → List (String × α)
  | [], k, v => [(k, v)]
  | (k₁, v₁) :: rest, k, v =>
      if k₁ = k then (k, v) :: rest else (k₁, v₁) :: putKey rest k v

/-- Drop JSON whitespace from the front of the input. -/
def skipWs : List Char → List Char
  | [] => []
  | c :: cs => if c = ' ' ∨ c = '\t' ∨ c = '\n' ∨ c = '\r' then skipWs cs else c :: cs

/-- Value of a hexadecimal digit. -/
def hexVal (c : Char) : Option Nat :=
  if '0' ≤ c ∧ c ≤ '9' then some (c.toNat - 48)
  else if 'a' ≤ c ∧ c ≤ 'f' then some (c.toNat - 87)
  else if 'A' ≤ c ∧ c ≤ 'F' then some (c.toNat - 55)
  else none

/-- Body of a JSON string after the opening quote: accumulate characters,
decode escapes, stop at the closing quote.  Fuel-indexed; `json_loads`
supplies enough fuel for its input. -/
def parseStringBody : Nat → List Char → List Char → Option (String × List Char)
  | 0, _, _ => none
  | _ + 1, [], _ => none
  | fuel + 1, c :: rest, acc =>
    if c = '"' then some (String.mk acc.reverse, rest)
    else if c = '\\' then
      match rest with
      | [] => none
      | e :: rest₁ =>
        if e = '"' ∨ e = '\\' ∨ e = '/' then parseStringBody fuel rest₁ (e :: acc)
        else if e = 'n' then parseStringBody fuel rest₁ ('\n' :: acc)
        else if e = 't' then parseStringBody fuel rest₁ ('\t' :: acc)
        else if e = 'r' then parseStringBody fuel rest₁ ('\r' :: acc)
        else if e = 'b' then parseStringBody fuel rest₁ (Char.ofNat 8 :: acc)
        else if e = 'f' then parseStringBody fuel rest₁ (Char.ofNat 12 :: acc)
        else if e = 'u' then
          match rest₁ with
          | h₁ :: h₂ :: h₃ :: h₄ :: rest₂ =>
            match hexVal h₁, hexVal h₂, hexVal h₃, hexVal h₄ with
            | some a, some b, some c₁, some d =>
                parseStringBody fuel rest₂
                  (Char.ofNat (((a * 16 + b) * 16 + c₁) * 16 + d) :: acc)
            | _, _, _, _ => none
          | _ => none
        else none
    else if c.toNat < 32 then none
    else parseStringBody fuel rest (c :: acc)

/-- Consume a run of decimal digits, returning their value. -/
def takeDigits : List Char → Nat → Nat × List Char
  | [], acc => (acc, [])
  | c :: rest, acc =>
      if c.isDigit then takeDigits rest (acc * 10 + (c.toNat - 48))
      else (acc, c :: rest)

/-- Parse an integer JSON number (the numeric subset of this model). -/
def parseNumber : List Char → Option (Json × List Char)
  | '-' :: rest =>
    match rest with
    | c :: _ =>
        if c.isDigit then
          let p := takeDigits rest 0
          some (Json.num (-(p.1 : Int)), p.2)
        else none
    | [] => none
  | c :: rest =>
      if c.isDigit then
        let p := takeDigits (c :: rest) 0
        some (Json.num (p.1 : Int), p.2)
      else none
  | [] => none

mutual

/-- Parse one JSON value from the input (model of the grammar `json.loads`
accepts, restricted to integer numbers). -/
def parseValue : Nat → List Char → Option (Json × List Char)
  | 0, _ => none
  | fuel + 1, input =>
    match skipWs input with
    | 'n' :: 'u' :: 'l' :: 'l' :: rest => some (Json.null, rest)
    | 't' :: 'r' :: 'u' :: 'e' :: rest => some (Json.bool true, rest)
    | 'f' :: 'a' :: 'l' :: 's' :: 'e' :: rest => some (Json.bool false, rest)
    | '"' :: rest =>
      match parseStringBody (fuel + 1) rest [] with
      | some (s, rest₁) => some (Json.str s, rest₁)
      | none => none
    | '[' :: rest =>
      match skipWs rest with
      | ']' :: rest₁ => some (Json.arr [], rest₁)
      | other => parseElems fuel other []
    | c :: rest =>
      if c = lbrace then
        match skipWs rest with
        | c₁ :: rest₁ =>
            if c₁ = rbrace then some (Json.obj [], rest₁)
            else parseMembers fuel (c₁ :: rest₁) []
        | [] => none
      else parseNumber (c :: rest)
    | [] => none

/-- Parse the elements of a non-empty JSON array, after the opening bracket. -/
def parseElems : Nat → List Char → List Json → Option (Json × List Char)
  | 0, _, _ => none
  | fuel + 1, input, acc =>
    match parseValue fuel input with
    | none => none
    | some (v, rest) =>
      match skipWs rest with
      | ',' :: rest₁ => parseElems fuel rest₁ (v :: acc)
      | ']' :: rest₁ => some (Json.arr (v :: acc).reverse, rest₁)
      | _ => none

/-- Parse the members of a non-empty JSON object, after the opening brace.
A repeated key overwrites its earlier binding, as in a Python `dict`. -/
def parseMembers : Nat → List Char → List (String × Json) → Option (Json × List Char)
  | 0, _, _ => none
  | fuel + 1, input, acc =>
    match skipWs input with
    | '"' :: rest =>
      match parseStringBody fuel rest [] with
      | none => none
      | some (k, rest₁) =>
        match skipWs rest₁ with
        | ':' :: rest₂ =>
          match parseValue fuel rest₂ with
          | none => none
          | some (v, rest₃) =>
            match skipWs rest₃ with
            | ',' :: rest₄ => parseMembers fuel rest₄ (putKey acc k v)
            | c :: rest₄ =>
                if c = rbrace then some (Json.obj (putKey acc k v), rest₄)
                else none
            | [] => none
        | _ => none
    | _ => none

end

/-- Model of Python `json.loads`: parse the whole text as one JSON value,
failing (as `json.loads` raises `JSONDecodeError`) on anything else. -/
def json_loads (s : String) : Option Json :=
  match parseValue (s.data.length + 1) s.data with
  | some (j, rest) =>
      match skipWs rest with
      | [] => some j
      | _ :: _ => none
  | none => none

/-- Lowercase hexadecimal digit. -/
def hexDigit (n : Nat) : Char :=
  if n < 10 then Char.ofNat (48 + n) else Char.ofNat (87 + n)

/-- A `\uXXXX` escape for a code unit. -/
def uEscape (n : Nat) : List Char :=
  ['\\', 'u', hexDigit (n / 4096 % 16), hexDigit (n / 256 % 16),
   hexDigit (n / 16 % 16), hexDigit (n % 16)]

/-- Escaping of one character by `json.dumps` with `ensure_ascii=True`:
printable ASCII passes through, short escapes for the usual controls, and
`\uXXXX` (a surrogate pair above the BMP) for everything else. -/
def escapeChar (c : Char) : List Char :=
  if c = '"' then ['\\', '"']
  else if c = '\\' then ['\\', '\\']
  else if c = '\n' then ['\\', 'n']
  else if c = '\t' then ['\\', 't']
  else if c = '\r' then ['\\', 'r']
  else if c.toNat = 8 then ['\\', 'b']
  else if c.toNat = 12 then ['\\', 'f']
  else if c.toNat < 32 ∨ 126 < c.toNat then
    if c.toNat < 65536 then uEscape c.toNat
    else uEscape (55296 + (c.toNat - 65536) / 1024) ++ uEscape (56320 + (c.toNat - 65536) % 1024)
  else [c]

/-- `json.dumps` applied to a string. -/
def dumpsStr (s : String) : String :=
  "\"" ++ String.mk (s.data.map escapeChar).flatten ++ "\""

mutual

/-- Model of Python `json.dumps` with its defaults: separators `", "` and
`": "`, `ensure_ascii=True`. -/
def json_dumps : Json → String
  | Json.null => "null"
  | Json.bool true => "true"
  | Json.bool false => "false"
  | Json.num n => toString n
  | Json.str s => dumpsStr s
  | Json.arr xs => "[" ++ dumpsElems xs ++ "]"
  | Json.obj kvs =>
      String.mk [lbrace] ++ dumpsMembers kvs ++ String.mk [rbrace]

/-- Comma-separated serialization of array elements. -/
def dumpsElems : List Json → String
  | [] => ""
  | [x] => json_dumps x
  | x :: y :: rest => json_dumps x ++ ", " ++ dumpsElems (y :: rest)

/-- Comma-separated serialization of object members. -/
def dumpsMembers : List (String × Json) → String
  | [] => ""
  | [(k, v)] => dumpsStr k ++ ": " ++ json_dumps v
  | (k, v) :: m :: rest => dumpsStr k ++ ": " ++ json_dumps v ++ ", " ++ dumpsMembers (m :: rest)

end

/-!
## The event, the store, and the handler
-/

/-- `event.requestContext.http`: may lack the `method` key. -/
structure Http where
  method : Option String

/-- `event.requestContext`: may lack the `http` key. -/
structure RequestContext where
  http : Option Http

/-- An API Gateway v2 event as `lambda_handler` reads it: each part may be
absent, matching the `dict` lookups in the code (an absent
`queryStringParameters` also covers the platform sending `null`, since both
make the subscript on line 97 raise). -/
structure Event where
  requestContext : Option RequestContext
  body : Option String
  queryStringParameters : Option (List (String × String))

/-- The chain `event['requestContext']['http']['method']` of line 58:
`none` when any link is missing, in which case the `KeyError` escapes the
handler (that line is outside both try blocks). -/
def getMethod (event : Event) : Option String :=
  match event.requestContext with
  | none => none
  | some rc =>
    match rc.http with
    | none => none
    | some h => h.method

/-- The DynamoDB table contents: each record, keyed by its `UserID`, holds
the value of its `Name` attribute (the only attribute this API ever writes). -/
abbrev Store := List (String × Json)

/-- Whether the environment lets each DynamoDB call succeed: `writeOk` and
`readOk` model store-level failures (throttling, permission denial,
connectivity) of `put_item` and `get_item` respectively. -/
structure StoreOracle where
  writeOk : Bool
  readOk : Bool

/-- The response dictionaries the handler returns. -/
structure OutboundResponse where
  statusCode : Nat
  body : String

/-- A 500 response carrying `json.dumps(str(e))`, as both except blocks
build it. -/
def err500 (msg : String) : OutboundResponse :=
  { statusCode := 500, body := json_dumps (Json.str msg) }

/-- Python subscript `j[k]` on a value parsed from JSON: a `KeyError` on a
missing key of a dict, a `TypeError` on anything that is not a dict. -/
def subscript (j : Json) (k : String) : Except String Json :=
  match j with
  | Json.obj kvs =>
    match lookupKey kvs k with
    | some v => Except.ok v
    | none => Except.error ("KeyError: " ++ k)
  | _ => Except.error ("TypeError: value is not subscriptable by " ++ k)

/-- Python `str()` of a container value parsed from JSON, with a simplified
`repr` for nested strings (quotes, no inner escaping). -/
def pyRepr : Json → String
  | Json.null => "None"
  | Json.bool true => "True"
  | Json.bool false => "False"
  | Json.num n => toString n
  | Json.str s => String.mk (Char.ofNat 39 :: s.data) ++ String.mk [Char.ofNat 39]
  | Json.arr _ => "[...]"
  | Json.obj _ => "{...}"

/-- Python `str()` as the f-string on line 81 applies it to the parsed
`name` value. -/
def pyToStr : Json → String
  | Json.str s => s
  | j => pyRepr j

/-- Model of `table.put_item(Item={'UserID': uid, 'Name': nameVal})` (line
76): DynamoDB rejects an empty string key value and a non-string value for
the string-typed key attribute; otherwise the write succeeds exactly when
the oracle lets it, replacing the whole record stored under that key. -/
def put_item (oracle : StoreOracle) (store : Store) (uid nameVal : Json) :
    Except String Store :=
  match uid with
  | Json.str s =>
      if s = "" then Except.error "ValidationException: empty key attribute value"
      else if oracle.writeOk then Except.ok (putKey store s nameVal)
      else Except.error "ClientError: put_item failed"
  | _ => Except.error "ValidationException: key attribute type mismatch"

/-- Model of `table.get_item(Key={'UserID': uid})` (line 100): DynamoDB
rejects an empty string key value; otherwise, when the oracle lets the call
succeed, the result is the full stored item (as boto3's `response['Item']`)
or `none` when no record exists under the key. -/
def get_item (oracle : StoreOracle) (store : Store) (uid : String) :
    Except String (Option Json) :=
  if uid = "" then Except.error "ValidationException: empty key attribute value"
  else if oracle.readOk then
    Except.ok ((lookupKey store uid).map fun v =>
      Json.obj [("UserID", Json.str uid), ("Name", v)])
  else Except.error "ClientError: get_item failed"

/-- The POST branch (lines 66-86), whole try/except included: parse the
body, extract `user_id` and `name`, issue the one `put_item` call, and map
any exception to a 500 response.  Returns the response, the resulting store,
and the list of `put_item` calls issued (each as the pair of item values). -/
def handlePost (oracle : StoreOracle) (event : Event) (store : Store) :
    OutboundResponse × Store × List (Json × Json) :=
  match event.body with
  | none => (err500 "KeyError: body", store, [])
  | some raw =>
    match json_loads raw with
    | none => (err500 "JSONDecodeError: invalid JSON", store, [])
    | some parsed =>
      match subscript parsed "user_id" with
      | Except.error e => (err500 e, store, [])
      | Except.ok uidVal =>
        match subscript parsed "name" with
        | Except.error e => (err500 e, store, [])
        | Except.ok nameVal =>
          match put_item oracle store uidVal nameVal with
          | Except.ok store₁ =>
              ({ statusCode := 200,
                 body := json_dumps (Json.str
                   ("User " ++ pyToStr nameVal ++ " saved successfully")) },
               store₁, [(uidVal, nameVal)])
          | Except.error e => (err500 e, store, [(uidVal, nameVal)])

mutual

/-- Whether a value holds a number anywhere inside it.  boto3 deserializes
every DynamoDB number attribute to `Decimal`, and `json.dumps` raises
`TypeError` on `Decimal`: a retrieved item is JSON-serializable exactly when
no number occurs in it. -/
def containsNum : Json → Bool
  | Json.num _ => true
  | Json.arr xs => containsNumList xs
  | Json.obj kvs => containsNumFields kvs
  | _ => false

/-- `containsNum` over array elements. -/
def containsNumList : List Json → Bool
  | [] => false
  | x :: xs => containsNum x || containsNumList xs

/-- `containsNum` over object members. -/
def containsNumFields : List (String × Json) → Bool
  | [] => false
  | (_, v) :: kvs => containsNum v || containsNumFields kvs

end

/-- Model of `json.dumps(response['Item'])` on line 105, where the item came
back from boto3: numbers were deserialized to `Decimal`, on which
`json.dumps` raises `TypeError` (caught by the except block); everything
else serializes as usual. -/
def json_dumps_item (j : Json) : Except String String :=
  if containsNum j then
    Except.error "TypeError: Object of type Decimal is not JSON serializable"
  else Except.ok (json_dumps j)

/-- The GET branch (lines 93-112), whole try/except included: extract the
`id` query parameter, issue the one `get_item` call, and map found / not
found / any exception to 200 / 404 / 500.  A found item is serialized by
`json_dumps_item`, which raises on the `Decimal` values boto3 returns for
stored numbers, landing in the except block.  The store is never written. -/
def handleGet (oracle : StoreOracle) (event : Event) (store : Store) :
    OutboundResponse :=
  match event.queryStringParameters with
  | none => err500 "TypeError: queryStringParameters is not subscriptable"
  | some qs =>
    match lookupKey qs "id" with
    | none => err500 "KeyError: id"
    | some uid =>
      match get_item oracle store uid with
      | Except.error e => err500 e
      | Except.ok (some item) =>
        match json_dumps_item item with
        | Except.ok body₁ => { statusCode := 200, body := body₁ }
        | Except.error e => err500 e
      | Except.ok none =>
          { statusCode := 404,
            body := json_dumps (Json.str ("User " ++ uid ++ " not found")) }

/-- `lambda_handler` (lines 34-118).  `Except.error` models a Python
exception escaping the handler: the only such site is the method lookup of
line 58, which sits outside both try blocks.  On `Except.ok` the result
carries the response, the store after the invocation, and the `put_item`
calls issued. -/
def lambda_handler (oracle : StoreOracle) (event : Event) (store : Store) :
    Except String (OutboundResponse × Store × List (Json × Json)) :=
  match getMethod event with
  | none => Except.error "KeyError: requestContext.http.method"
  | some m =>
      if m = "POST" then Except.ok (handlePost oracle event store)
      else if m = "GET" then Except.ok (handleGet oracle event store, store, [])
      else Except.ok
        ({ statusCode := 400, body := json_dumps (Json.str "Invalid HTTP method") },
         store, [])

/-!
## Concrete inputs used by witnesses
-/

/-- An oracle under which both DynamoDB calls succeed. -/
def okOracle : StoreOracle := { writeOk := true, readOk := true }

/-- A POST event carrying the given raw body. -/
def postEvent (raw : String) : Event :=
  { requestContext := some { http := some { method := some "POST" } },
    body := some raw, queryStringParameters := none }

/-- A GET event with query string `?id=uid`. -/
def getEvent (uid : String) : Event :=
  { requestContext := some { http := some { method := some "GET" } },
    body := none, queryStringParameters := some [("id", uid)] }

/-- An event with the given method and nothing else. -/
def methodEvent (m : String) : Event :=
  { requestContext := some { http := some { method := some m } },
    body := none, queryStringParameters := none }

/-- Opening brace as a string. -/
def braceL : String := String.mk [lbrace]

/-- Closing brace as a string. -/
def braceR : String := String.mk [rbrace]

/-- The body `{"user_id": "1", "name": "Ada"}`. -/
def bodyAda : String := braceL ++ "\"user_id\": \"1\", \"name\": \"Ada\"" ++ braceR

/-- The body `{"user_id": "1", "name": "A"}`. -/
def bodyA : String := braceL ++ "\"user_id\": \"1\", \"name\": \"A\"" ++ braceR

/-- The body `{"user_id": "1", "name": "B"}`. -/
def bodyB : String := braceL ++ "\"user_id\": \"1\", \"name\": \"B\"" ++ braceR

/-- A response is well formed when its status code is one the handler can
produce and its body is the `json.dumps` of some value. -/
def wellFormed (r : OutboundResponse) : Prop :=
  (r.statusCode = 200 ∨ r.statusCode = 400 ∨ r.statusCode = 404 ∨ r.statusCode = 500) ∧
  ∃ v, r.body = json_dumps v

/-!
## Association-list lemmas and handler computation lemmas
-/

theorem lookupKey_putKey_self {α : Type} (l : List (String × α)) (k : String) (v : α) :
    lookupKey (putKey l k v) k = some v := by
  induction l with
  | nil => simp [putKey, lookupKey]
  | cons hd tl ih =>
    obtain ⟨k₁, v₁⟩ := hd
    by_cases h : k₁ = k
    · subst h; simp [putKey, lookupKey]
    · simp [putKey, lookupKey, h, ih]

theorem lookupKey_putKey_ne {α : Type} (l : List (String × α)) (k k₁ : String) (v : α)
    (h : k₁ ≠ k) : lookupKey (putKey l k v) k₁ = lookupKey l k₁ := by
  induction l with
  | nil => simp [putKey, lookupKey, Ne.symm h]
  | cons hd tl ih =>
    obtain ⟨k₂, v₂⟩ := hd
    by_cases h₂ : k₂ = k
    · subst h₂
      simp [putKey, lookupKey, Ne.symm h]
    · simp [putKey, lookupKey, h₂, ih]

theorem putKey_idem {α : Type} (l : List (String × α)) (k : String) (v : α) :
    putKey (putKey l k v) k v = putKey l k v := by
  induction l with
  | nil => simp [putKey]
  | cons hd tl ih =>
    obtain ⟨k₁, v₁⟩ := hd
    by_cases h : k₁ = k
    · subst h; simp [putKey]
    · simp [putKey, h, ih]

theorem wellFormed_err500 (msg : String) : wellFormed (err500 msg) :=
  ⟨Or.inr (Or.inr (Or.inr rfl)), Json.str msg, rfl⟩

theorem handlePost_wellFormed (oracle : StoreOracle) (event : Event) (store : Store) :
    wellFormed (handlePost oracle event store).1 := by
  unfold handlePost
  repeat' split
  all_goals
    first
      | exact wellFormed_err500 _
      | exact ⟨Or.inl rfl, _, rfl⟩

theorem json_dumps_item_ok (j : Json) (s : String)
    (h : json_dumps_item j = Except.ok s) : s = json_dumps j := by
  unfold json_dumps_item at h
  split at h
  · exact Except.noConfusion h
  · injection h with h
    exact h.symm

theorem handleGet_wellFormed (oracle : StoreOracle) (event : Event) (store : Store) :
    wellFormed (handleGet oracle event store) := by
  unfold handleGet
  repeat' split
  all_goals
    first
      | exact wellFormed_err500 _
      | exact ⟨Or.inr (Or.inr (Or.inl rfl)), _, rfl⟩
      | (rename_i heq
         exact ⟨Or.inl rfl, _, json_dumps_item_ok _ _ heq⟩)

theorem handler_post_ok (oracle : StoreOracle) (event : Event) (store : Store)
    (raw : String) (j : Json) (uid nm : String)
    (hm : getMethod event = some "POST") (hb : event.body = some raw)
    (hload : json_loads raw = some j)
    (hu : subscript j "user_id" = Except.ok (Json.str uid))
    (hn : subscript j "name" = Except.ok (Json.str nm))
    (hne : uid ≠ "") (hw : oracle.writeOk = true) :
    lambda_handler oracle event store =
      Except.ok ({ statusCode := 200,
                   body := json_dumps (Json.str ("User " ++ nm ++ " saved successfully")) },
                 putKey store uid (Json.str nm), [(Json.str uid, Json.str nm)]) := by
  simp only [lambda_handler, handlePost, put_item, pyToStr, hm, hb, hload, hu, hn, hne, hw,
    if_true, if_false, reduceIte]

theorem handler_get_found (oracle : StoreOracle) (event : Event) (store : Store)
    (qs : List (String × String)) (uid : String) (v : Json)
    (hm : getMethod event = some "GET") (hqs : event.queryStringParameters = some qs)
    (hid : lookupKey qs "id" = some uid) (hne : uid ≠ "") (hr : oracle.readOk = true)
    (hv : lookupKey store uid = some v) (hnum : containsNum v = false) :
    lambda_handler oracle event store =
      Except.ok ({ statusCode := 200,
                   body := json_dumps (Json.obj [("UserID", Json.str uid), ("Name", v)]) },
                 store, []) := by
  simp only [lambda_handler, handleGet, get_item, json_dumps_item, containsNum,
    containsNumFields, hm, hqs, hid, hne, hr, hv, hnum, Option.map, Bool.false_or,
    Bool.or_false, Bool.or_self, reduceIte]
  simp [hne]

theorem handler_get_found_num (oracle : StoreOracle) (event : Event) (store : Store)
    (qs : List (String × String)) (uid : String) (v : Json)
    (hm : getMethod event = some "GET") (hqs : event.queryStringParameters = some qs)
    (hid : lookupKey qs "id" = some uid) (hne : uid ≠ "") (hr : oracle.readOk = true)
    (hv : lookupKey store uid = some v) (hnum : containsNum v = true) :
    lambda_handler oracle event store =
      Except.ok (err500 "TypeError: Object of type Decimal is not JSON serializable",
                 store, []) := by
  simp only [lambda_handler, handleGet, get_item, json_dumps_item, containsNum,
    containsNumFields, hm, hqs, hid, hne, hr, hv, hnum, Option.map, Bool.false_or,
    Bool.or_false, Bool.or_self, Bool.true_or, Bool.or_true, reduceIte]
  simp [hne]

theorem handler_get_missing (oracle : StoreOracle) (event : Event) (store : Store)
    (qs : List (String × String)) (uid : String)
    (hm : getMethod event = some "GET") (hqs : event.queryStringParameters = some qs)
    (hid : lookupKey qs "id" = some uid) (hne : uid ≠ "") (hr : oracle.readOk = true)
    (hv : lookupKey store uid = none) :
    lambda_handler oracle event store =
      Except.ok ({ statusCode := 404,
                   body := json_dumps (Json.str ("User " ++ uid ++ " not found")) },
                 store, []) := by
  simp only [lambda_handler, handleGet, get_item, hm, hqs, hid, hne, hr, hv, Option.map,
    reduceIte]
  simp [hne]

theorem put_item_error_of_writeFail (oracle : StoreOracle) (store : Store) (u v : Json)
    (hw : oracle.writeOk = false) : ∃ e, put_item oracle store u v = Except.error e := by
  cases u <;> simp only [put_item, hw] <;>
    first
      | exact ⟨_, rfl⟩
      | (split <;> exact ⟨_, rfl⟩)

/-!
## The claims
-/

/-- Claim C1, counterexample: an inbound event lacking the
`requestContext.http.method` chain makes the handler raise (`Except.error`)
past its own boundary — the lookup on line 58 sits outside both try blocks —
so the claim that every failure is caught and converted to a statusCode-500
response is false as stated. -/
theorem c1_missing_method_raises :
    lambda_handler okOracle
      { requestContext := none, body := none, queryStringParameters := none } [] =
      Except.error "KeyError: requestContext.http.method" := rfl

/-- Claim C1, amended: for every inbound event that does carry the method
field, `lambda_handler` returns a well-formed response (statusCode among
200/400/404/500, body a JSON-encoded value) and raises no exception past its
boundary; in particular every failure inside the POST and GET branches is
caught there. -/
theorem c1_no_raise_when_method_present (oracle : StoreOracle) (event : Event)
    (store : Store) (m : String) (hm : getMethod event = some m) :
    ∃ resp store₁ calls,
      lambda_handler oracle event store = Except.ok (resp, store₁, calls) ∧
      wellFormed resp := by
  by_cases hp : m = "POST"
  · subst hp
    simp only [lambda_handler, hm, reduceIte]
    exact ⟨_, _, _, rfl, handlePost_wellFormed oracle event store⟩
  · by_cases hg : m = "GET"
    · subst hg
      simp only [lambda_handler, hm, reduceIte]
      exact ⟨_, _, _, rfl, handleGet_wellFormed oracle event store⟩
    · simp only [lambda_handler, hm]
      rw [if_neg hp, if_neg hg]
      exact ⟨_, _, _, rfl, Or.inr (Or.inl rfl), Json.str "Invalid HTTP method", rfl⟩

/-- Witness for the amended claim C1 at a concrete POST event. -/
theorem c1_no_raise_when_method_present_witness :
    ∃ resp store₁ calls,
      lambda_handler okOracle (postEvent bodyAda) [] = Except.ok (resp, store₁, calls) ∧
      wellFormed resp :=
  c1_no_raise_when_method_present okOracle (postEvent bodyAda) [] "POST" rfl

/-- Claim C3: a POST whose body parses as JSON with string fields `user_id`
and `name`, and whose store write succeeds, issues exactly one write-record
call with key `user_id` and field `Name = name` — creating the record if
absent and fully replacing the `Name` value if present, while touching no
other record — and returns statusCode 200 with body the JSON-encoded string
`User {name} saved successfully`. -/
theorem c3_post_success (oracle : StoreOracle) (event : Event) (store : Store)
    (raw : String) (j : Json) (uid nm : String)
    (hm : getMethod event = some "POST") (hb : event.body = some raw)
    (hload : json_loads raw = some j)
    (hu : subscript j "user_id" = Except.ok (Json.str uid))
    (hn : subscript j "name" = Except.ok (Json.str nm))
    (hne : uid ≠ "") (hw : oracle.writeOk = true) :
    lambda_handler oracle event store =
      Except.ok ({ statusCode := 200,
                   body := json_dumps (Json.str ("User " ++ nm ++ " saved successfully")) },
                 putKey store uid (Json.str nm), [(Json.str uid, Json.str nm)]) ∧
    lookupKey (putKey store uid (Json.str nm)) uid = some (Json.str nm) ∧
    ∀ k, k ≠ uid → lookupKey (putKey store uid (Json.str nm)) k = lookupKey store k :=
  ⟨handler_post_ok oracle event store raw j uid nm hm hb hload hu hn hne hw,
   lookupKey_putKey_self store uid (Json.str nm),
   fun k hk => lookupKey_putKey_ne store uid k (Json.str nm) hk⟩

/-- Witness for claim C3 at the body with user_id 1 and name Ada. -/
theorem c3_post_success_witness :
    lambda_handler okOracle (postEvent bodyAda) [] =
      Except.ok ({ statusCode := 200,
                   body := json_dumps (Json.str ("User " ++ "Ada" ++ " saved successfully")) },
                 putKey [] "1" (Json.str "Ada"), [(Json.str "1", Json.str "Ada")]) ∧
    lookupKey (putKey ([] : Store) "1" (Json.str "Ada")) "1" = some (Json.str "Ada") ∧
    ∀ k, k ≠ "1" → lookupKey (putKey ([] : Store) "1" (Json.str "Ada")) k =
      lookupKey ([] : Store) k :=
  c3_post_success okOracle (postEvent bodyAda) []
    bodyAda (Json.obj [("user_id", Json.str "1"), ("name", Json.str "Ada")]) "1" "Ada"
    rfl rfl rfl rfl rfl (by decide) rfl

/-- Claim C4, counterexample: for the store holding the record
`UserID = 1, Name = 5` — reachable through a POST with a numeric `name`,
which both the program and the model accept with 200 — a GET with `id = 1`
does not return statusCode 200 with the serialized record, as the claim
states for every record found: boto3 hands `json.dumps` a `Decimal`, which
raises `TypeError` (caught), so the handler returns 500. -/
theorem c4_numeric_name_counterexample :
    ∃ resp, lambda_handler okOracle (getEvent "1") [("1", Json.num 5)] =
      Except.ok (resp, [("1", Json.num 5)], []) ∧
      resp.statusCode = 500 ∧ resp.statusCode ≠ 200 :=
  ⟨_, rfl, rfl, by decide⟩

/-- Claim C4, amended: a GET whose query parameters bind `id` to a non-empty
string, against a store the environment lets the handler read, returns —
when a record exists under that key whose stored `Name` value holds no
number — statusCode 200 with the JSON-encoded full record; when the stored
`Name` value holds a number, `json.dumps` raises on the `Decimal` boto3
returns for it and the handler returns statusCode 500 with a JSON-encoded
string; and when no record exists, statusCode 404 with body the JSON-encoded
string `User {id} not found`. -/
theorem c4_get_found_or_not_found (oracle : StoreOracle) (event : Event) (store : Store)
    (qs : List (String × String)) (uid : String)
    (hm : getMethod event = some "GET") (hqs : event.queryStringParameters = some qs)
    (hid : lookupKey qs "id" = some uid) (hne : uid ≠ "") (hr : oracle.readOk = true) :
    (∀ v, lookupKey store uid = some v → containsNum v = false →
      lambda_handler oracle event store =
        Except.ok ({ statusCode := 200,
                     body := json_dumps (Json.obj [("UserID", Json.str uid), ("Name", v)]) },
                   store, [])) ∧
    (∀ v, lookupKey store uid = some v → containsNum v = true →
      ∃ msg, lambda_handler oracle event store =
        Except.ok ({ statusCode := 500, body := json_dumps (Json.str msg) },
                   store, [])) ∧
    (lookupKey store uid = none →
      lambda_handler oracle event store =
        Except.ok ({ statusCode := 404,
                     body := json_dumps (Json.str ("User " ++ uid ++ " not found")) },
                   store, [])) :=
  ⟨fun v hv hnum => handler_get_found oracle event store qs uid v hm hqs hid hne hr hv hnum,
   fun v hv hnum =>
     ⟨"TypeError: Object of type Decimal is not JSON serializable",
      handler_get_found_num oracle event store qs uid v hm hqs hid hne hr hv hnum⟩,
   fun hv => handler_get_missing oracle event store qs uid hm hqs hid hne hr hv⟩

/-- Witness for the amended claim C4 at id 1 over the one-record store. -/
theorem c4_get_found_or_not_found_witness :
    (∀ v, lookupKey [("1", Json.str "Ada")] "1" = some v → containsNum v = false →
      lambda_handler okOracle (getEvent "1") [("1", Json.str "Ada")] =
        Except.ok ({ statusCode := 200,
                     body := json_dumps (Json.obj [("UserID", Json.str "1"), ("Name", v)]) },
                   [("1", Json.str "Ada")], [])) ∧
    (∀ v, lookupKey [("1", Json.str "Ada")] "1" = some v → containsNum v = true →
      ∃ msg, lambda_handler okOracle (getEvent "1") [("1", Json.str "Ada")] =
        Except.ok ({ statusCode := 500, body := json_dumps (Json.str msg) },
                   [("1", Json.str "Ada")], [])) ∧
    (lookupKey [("1", Json.str "Ada")] "1" = none →
      lambda_handler okOracle (getEvent "1") [("1", Json.str "Ada")] =
        Except.ok ({ statusCode := 404,
                     body := json_dumps (Json.str ("User " ++ "1" ++ " not found")) },
                   [("1", Json.str "Ada")], [])) :=
  c4_get_found_or_not_found okOracle (getEvent "1") [("1", Json.str "Ada")]
    [("id", "1")] "1" rfl rfl rfl (by decide) rfl

/-- Claim C7: a request whose method is neither GET nor POST returns
statusCode 400 with body the JSON-encoded string `Invalid HTTP method`,
leaves the store unchanged and issues no write-record call. -/
theorem c7_invalid_method (oracle : StoreOracle) (event : Event) (store : Store)
    (m : String) (hm : getMethod event = some m) (hg : m ≠ "GET") (hp : m ≠ "POST") :
    lambda_handler oracle event store =
      Except.ok ({ statusCode := 400, body := json_dumps (Json.str "Invalid HTTP method") },
                 store, []) := by
  simp only [lambda_handler, hm]
  rw [if_neg hp, if_neg hg]

/-- Witness for claim C7 at a DELETE request. -/
theorem c7_invalid_method_witness :
    lambda_handler okOracle (methodEvent "DELETE") [] =
      Except.ok ({ statusCode := 400, body := json_dumps (Json.str "Invalid HTTP method") },
                 [], []) :=
  c7_invalid_method okOracle (methodEvent "DELETE") [] "DELETE" rfl
    (by decide) (by decide)

/-- Claim C9: handling any request whose method is not POST — every GET, and
every unsupported method — leaves the store unchanged and issues no
write-record call, whatever response comes back. -/
theorem c9_non_post_preserves_store (oracle : StoreOracle) (event : Event) (store : Store)
    (m : String) (hm : getMethod event = some m) (hp : m ≠ "POST") :
    ∃ resp, lambda_handler oracle event store = Except.ok (resp, store, []) := by
  simp only [lambda_handler, hm]
  rw [if_neg hp]
  by_cases hg : m = "GET"
  · subst hg
    rw [if_pos rfl]
    exact ⟨_, rfl⟩
  · rw [if_neg hg]
    exact ⟨_, rfl⟩

/-- Witness for claim C9 at a GET over the empty store. -/
theorem c9_non_post_preserves_store_witness :
    ∃ resp, lambda_handler okOracle (getEvent "1") [] = Except.ok (resp, [], []) :=
  c9_non_post_preserves_store okOracle (getEvent "1") [] "GET" rfl (by decide)

/-- Claim C2: for a valid pair of strings — a non-empty `user_id`, with a
body text that JSON-decodes to the object with that `user_id` and `name` —
a POST with that body followed by a GET with `id = user_id` against the
resulting store returns statusCode 200 with a body serializing a record
carrying that `user_id` and that `name`. -/
theorem c2_post_then_get (oracle : StoreOracle) (store : Store) (uid nm raw : String)
    (hw : oracle.writeOk = true) (hr : oracle.readOk = true) (hne : uid ≠ "")
    (hparse : json_loads raw =
      some (Json.obj [("user_id", Json.str uid), ("name", Json.str nm)])) :
    ∃ resp₁ calls₁,
      lambda_handler oracle (postEvent raw) store =
        Except.ok (resp₁, putKey store uid (Json.str nm), calls₁) ∧
      resp₁.statusCode = 200 ∧
      lambda_handler oracle (getEvent uid) (putKey store uid (Json.str nm)) =
        Except.ok ({ statusCode := 200,
                     body := json_dumps
                       (Json.obj [("UserID", Json.str uid), ("Name", Json.str nm)]) },
                   putKey store uid (Json.str nm), []) := by
  refine ⟨_, _,
    handler_post_ok oracle (postEvent raw) store raw _ uid nm rfl rfl hparse ?_ ?_ hne hw,
    rfl, ?_⟩
  · simp [subscript, lookupKey]
  · simp [subscript, lookupKey]
  · exact handler_get_found oracle (getEvent uid) (putKey store uid (Json.str nm))
      [("id", uid)] uid (Json.str nm) rfl rfl (by simp [lookupKey]) hne hr
      (lookupKey_putKey_self store uid (Json.str nm)) rfl

/-- Witness for claim C2 at user_id 1, name Ada, over the empty store. -/
theorem c2_post_then_get_witness :
    ∃ resp₁ calls₁,
      lambda_handler okOracle (postEvent bodyAda) [] =
        Except.ok (resp₁, putKey [] "1" (Json.str "Ada"), calls₁) ∧
      resp₁.statusCode = 200 ∧
      lambda_handler okOracle (getEvent "1") (putKey [] "1" (Json.str "Ada")) =
        Except.ok ({ statusCode := 200,
                     body := json_dumps
                       (Json.obj [("UserID", Json.str "1"), ("Name", Json.str "Ada")]) },
                   putKey [] "1" (Json.str "Ada"), []) :=
  c2_post_then_get okOracle [] "1" "Ada" bodyAda rfl rfl (by decide) rfl

/-- Claim C8: writing an existing `UserID` overwrites the prior `Name` with
no merge — POST `name = A` then POST `name = B` under one `user_id` makes a
GET of that id return the record with name `B` — and repeating the same POST
leaves exactly the end-state one POST produces. -/
theorem c8_overwrite_and_idempotence (store : Store) (uid nmA nmB rawA rawB : String)
    (hne : uid ≠ "")
    (hA : json_loads rawA =
      some (Json.obj [("user_id", Json.str uid), ("name", Json.str nmA)]))
    (hB : json_loads rawB =
      some (Json.obj [("user_id", Json.str uid), ("name", Json.str nmB)])) :
    ∃ r₁ s₁ c₁ r₂ s₂ c₂,
      lambda_handler okOracle (postEvent rawA) store = Except.ok (r₁, s₁, c₁) ∧
      lambda_handler okOracle (postEvent rawB) s₁ = Except.ok (r₂, s₂, c₂) ∧
      lambda_handler okOracle (getEvent uid) s₂ =
        Except.ok ({ statusCode := 200,
                     body := json_dumps
                       (Json.obj [("UserID", Json.str uid), ("Name", Json.str nmB)]) },
                   s₂, []) ∧
      ∃ r₃ c₃, lambda_handler okOracle (postEvent rawB) s₂ = Except.ok (r₃, s₂, c₃) := by
  have h₃ := handler_post_ok okOracle (postEvent rawB)
    (putKey (putKey store uid (Json.str nmA)) uid (Json.str nmB)) rawB _ uid nmB
    rfl rfl hB (by simp [subscript, lookupKey]) (by simp [subscript, lookupKey]) hne rfl
  rw [putKey_idem (putKey store uid (Json.str nmA)) uid (Json.str nmB)] at h₃
  exact ⟨_, putKey store uid (Json.str nmA), _,
         _, putKey (putKey store uid (Json.str nmA)) uid (Json.str nmB), _,
         handler_post_ok okOracle (postEvent rawA) store rawA _ uid nmA
           rfl rfl hA (by simp [subscript, lookupKey]) (by simp [subscript, lookupKey])
           hne rfl,
         handler_post_ok okOracle (postEvent rawB) (putKey store uid (Json.str nmA))
           rawB _ uid nmB
           rfl rfl hB (by simp [subscript, lookupKey]) (by simp [subscript, lookupKey])
           hne rfl,
         handler_get_found okOracle (getEvent uid)
           (putKey (putKey store uid (Json.str nmA)) uid (Json.str nmB))
           [("id", uid)] uid (Json.str nmB) rfl rfl (by simp [lookupKey]) hne rfl
           (lookupKey_putKey_self (putKey store uid (Json.str nmA)) uid (Json.str nmB))
           rfl,
         _, _, h₃⟩

/-- Witness for claim C8 at user_id 1, names A then B, over the empty store. -/
theorem c8_overwrite_and_idempotence_witness :
    ∃ r₁ s₁ c₁ r₂ s₂ c₂,
      lambda_handler okOracle (postEvent bodyA) [] = Except.ok (r₁, s₁, c₁) ∧
      lambda_handler okOracle (postEvent bodyB) s₁ = Except.ok (r₂, s₂, c₂) ∧
      lambda_handler okOracle (getEvent "1") s₂ =
        Except.ok ({ statusCode := 200,
                     body := json_dumps
                       (Json.obj [("UserID", Json.str "1"), ("Name", Json.str "B")]) },
                   s₂, []) ∧
      ∃ r₃ c₃, lambda_handler okOracle (postEvent bodyB) s₂ = Except.ok (r₃, s₂, c₃) :=
  c8_overwrite_and_idempotence [] "1" "A" "B" bodyA bodyB (by decide) rfl rfl

theorem not_put_ok_of_writeFail (oracle : StoreOracle) (store : Store) (u v : Json)
    (s₁ : Store) (hw : oracle.writeOk = false)
    (h : put_item oracle store u v = Except.ok s₁) : False := by
  obtain ⟨e, he⟩ := put_item_error_of_writeFail oracle store u v hw
  rw [he] at h
  exact Except.noConfusion h

/-- Claim C5: a POST whose body is absent or not valid JSON, or whose parsed
body yields no `user_id` or no `name` on subscripting, or whose store write
the environment fails, returns statusCode 500 with a JSON-encoded string as
the body. -/
theorem c5_post_failures (oracle : StoreOracle) (event : Event) (store : Store)
    (hm : getMethod event = some "POST")
    (hfail : event.body = none
      ∨ (∃ raw, event.body = some raw ∧ json_loads raw = none)
      ∨ (∃ raw j e, event.body = some raw ∧ json_loads raw = some j ∧
          subscript j "user_id" = Except.error e)
      ∨ (∃ raw j v e, event.body = some raw ∧ json_loads raw = some j ∧
          subscript j "user_id" = Except.ok v ∧ subscript j "name" = Except.error e)
      ∨ oracle.writeOk = false) :
    ∃ store₁ calls msg,
      lambda_handler oracle event store =
        Except.ok ({ statusCode := 500, body := json_dumps (Json.str msg) },
                   store₁, calls) := by
  rcases hfail with hb | ⟨raw, hb, hl⟩ | ⟨raw, j, e, hb, hl, hu⟩
    | ⟨raw, j, v, e, hb, hl, hu, hn⟩ | hw
  · exact ⟨store, [], "KeyError: body",
      by simp only [lambda_handler, handlePost, err500, hm, hb, reduceIte]⟩
  · exact ⟨store, [], "JSONDecodeError: invalid JSON",
      by simp only [lambda_handler, handlePost, err500, hm, hb, hl, reduceIte]⟩
  · exact ⟨store, [], e,
      by simp only [lambda_handler, handlePost, err500, hm, hb, hl, hu, reduceIte]⟩
  · exact ⟨store, [], e,
      by simp only [lambda_handler, handlePost, err500, hm, hb, hl, hu, hn, reduceIte]⟩
  · have hp : ∃ store₁ calls msg,
        handlePost oracle event store =
          ({ statusCode := 500, body := json_dumps (Json.str msg) }, store₁, calls) := by
      unfold handlePost
      repeat' split
      all_goals
        first
          | exact ⟨_, _, _, rfl⟩
          | (rename_i heq
             exact (not_put_ok_of_writeFail oracle store _ _ _ hw heq).elim)
    obtain ⟨s₁, c₁, msg, hp⟩ := hp
    exact ⟨s₁, c₁, msg, by simp only [lambda_handler, hm, reduceIte, hp]⟩

/-- Witness for claim C5 at a POST with a non-JSON body. -/
theorem c5_post_failures_witness :
    ∃ store₁ calls msg,
      lambda_handler okOracle (postEvent "notjson") [] =
        Except.ok ({ statusCode := 500, body := json_dumps (Json.str msg) },
                   store₁, calls) :=
  c5_post_failures okOracle (postEvent "notjson") [] rfl
    (Or.inr (Or.inl ⟨"notjson", rfl, rfl⟩))

/-- Claim C6: a GET whose query parameters are absent, lack the key `id`, or
bind `id` to the empty string, returns statusCode 500 with a JSON-encoded
string as the body (the empty-string case failing at the store's key
validation), leaving the store unchanged with no write issued. -/
theorem c6_get_bad_query (oracle : StoreOracle) (event : Event) (store : Store)
    (hm : getMethod event = some "GET")
    (hfail : event.queryStringParameters = none
      ∨ (∃ qs, event.queryStringParameters = some qs ∧ lookupKey qs "id" = none)
      ∨ (∃ qs, event.queryStringParameters = some qs ∧ lookupKey qs "id" = some "")) :
    ∃ msg,
      lambda_handler oracle event store =
        Except.ok ({ statusCode := 500, body := json_dumps (Json.str msg) },
                   store, []) := by
  rcases hfail with hq | ⟨qs, hq, hid⟩ | ⟨qs, hq, hid⟩
  · exact ⟨"TypeError: queryStringParameters is not subscriptable",
      by simp only [lambda_handler, handleGet, err500, hm, hq, reduceIte]; rfl⟩
  · exact ⟨"KeyError: id",
      by simp only [lambda_handler, handleGet, err500, hm, hq, hid, reduceIte]; rfl⟩
  · exact ⟨"ValidationException: empty key attribute value",
      by simp only [lambda_handler, handleGet, get_item, err500, hm, hq, hid, reduceIte]; rfl⟩

/-- Witness for claim C6 at a GET without query parameters. -/
theorem c6_get_bad_query_witness :
    ∃ msg,
      lambda_handler okOracle (methodEvent "GET") [] =
        Except.ok ({ statusCode := 500, body := json_dumps (Json.str msg) }, [], []) :=
  c6_get_bad_query okOracle (methodEvent "GET") [] rfl (Or.inl rfl)

/-- Claim C10: a POST whose body is absent or not valid JSON, or whose
parsed body fails the `user_id` or `name` extraction, fails before the
`put_item` line: the handler returns its 500 response with the store
unchanged and no write-record call issued. -/
theorem c10_post_parse_failure_no_write (oracle : StoreOracle) (event : Event)
    (store : Store) (hm : getMethod event = some "POST")
    (hfail : event.body = none
      ∨ (∃ raw, event.body = some raw ∧ json_loads raw = none)
      ∨ (∃ raw j e, event.body = some raw ∧ json_loads raw = some j ∧
          subscript j "user_id" = Except.error e)
      ∨ (∃ raw j v e, event.body = some raw ∧ json_loads raw = some j ∧
          subscript j "user_id" = Except.ok v ∧ subscript j "name" = Except.error e)) :
    ∃ msg,
      lambda_handler oracle event store =
        Except.ok ({ statusCode := 500, body := json_dumps (Json.str msg) },
                   store, []) := by
  rcases hfail with hb | ⟨raw, hb, hl⟩ | ⟨raw, j, e, hb, hl, hu⟩
    | ⟨raw, j, v, e, hb, hl, hu, hn⟩
  · exact ⟨"KeyError: body",
      by simp only [lambda_handler, handlePost, err500, hm, hb, reduceIte]⟩
  · exact ⟨"JSONDecodeError: invalid JSON",
      by simp only [lambda_handler, handlePost, err500, hm, hb, hl, reduceIte]⟩
  · exact ⟨e,
      by simp only [lambda_handler, handlePost, err500, hm, hb, hl, hu, reduceIte]⟩
  · exact ⟨e,
      by simp only [lambda_handler, handlePost, err500, hm, hb, hl, hu, hn, reduceIte]⟩

/-- Witness for claim C10 at a POST with a non-JSON body. -/
theorem c10_post_parse_failure_no_write_witness :
    ∃ msg,
      lambda_handler okOracle (postEvent "notjson") [] =
        Except.ok ({ statusCode := 500, body := json_dumps (Json.str msg) }, [], []) :=
  c10_post_parse_failure_no_write okOracle (postEvent "notjson") [] rfl
    (Or.inr (Or.inl ⟨"notjson", rfl, rfl⟩))
